import Mathlib

/-!
Verification of the self-play / arena orchestration core of CrazyAra
(src/engine/src/rl/selfplay.h).

Only the header (declarations and doc comments) of the orchestration core
is present in the repository snapshot; the function bodies live in a
translation unit outside it.  Every definition below therefore carries a
doc comment saying whether it is a direct transcription of the header or
modelled from the specification's description of the missing body.
Randomness is embedded by passing the random draws explicitly; floating
point quantities of the configuration (weights, scores) are embedded as
rationals.
-/

namespace CrazyAra

/-- Game result tag, as used by `generate_arena_game` and the PGN record. -/
inductive Result where
  | whiteWin
  | blackWin
  | draw
  deriving DecidableEq, Repr

/-- The slice of `SearchLimits` the scheduler touches: the node budget. -/
structure SearchLimits where
  nodes : Nat
  deriving DecidableEq, Repr

/-- The reinforcement-learning settings consulted by the scheduler
(`rlsettings.h` is outside the snapshot): the node randomization factor
(a percentage), the reduced quick-search budget and its exploration
parameters, and the safety floor on simulations. -/
structure RLSettings where
  nodeRandomFactor : Nat
  quickSearchNodes : Nat
  quickSearchQValueWeight : Rat
  quickDirichletEpsilon : Rat
  minimumNodes : Nat
  deriving DecidableEq, Repr

/-- Modelled from the spec: the body of `clip_ply` (declared at
src/engine/src/rl/selfplay.h:188) is outside the snapshot.  Per its doc
comment, a ply not exceeding `maxPly` is returned unchanged; otherwise the
result is sampled uniformly from [0, maxPly], embedded here by reducing
the supplied random draw modulo `maxPly + 1`. -/
def clip_ply (ply maxPly : Nat) (draw : Nat) : Nat :=
  if ply ≤ maxPly then ply else draw % (maxPly + 1)

/-- Modelled from the spec: the body of `adjust_node_count` (declared at
src/engine/src/rl/selfplay.h:108) is outside the snapshot.  Given the
random draw `randInt` and the configured randomization factor, the
nominal node budget is perturbed by a bounded signed offset and then
clamped from below at the safety floor `minimumNodes`; a perturbation
that would fall below the floor is clamped silently. -/
def adjust_node_count (rl : RLSettings) (limits : SearchLimits)
    (randInt : Int) : SearchLimits :=
  let maxOffset : Int := (limits.nodes * rl.nodeRandomFactor : Nat) / 100
  let offset : Int := randInt % (2 * maxOffset + 1) - maxOffset
  { limits with nodes := max rl.minimumNodes ((limits.nodes : Int) + offset).toNat }

/-- The per-oracle scheduler state: the live `SearchLimits` and
exploration parameters next to the backup fields that `SelfPlay` keeps
(src/engine/src/rl/selfplay.h:55-57: `backupNodes`,
`backupDirichletEpsilon`, `backupQValueWeight`). -/
structure SchedulerState where
  searchLimits : SearchLimits
  qValueWeight : Rat
  dirichletEpsilon : Rat
  backupNodes : Nat
  backupQValueWeight : Rat
  backupDirichletEpsilon : Rat
  deriving DecidableEq, Repr

/-- The observable search configuration of a scheduler state: the limits
plus the exploration parameters, without the backup bookkeeping. -/
def SchedulerState.config (s : SchedulerState) : SearchLimits × Rat × Rat :=
  (s.searchLimits, s.qValueWeight, s.dirichletEpsilon)

/-- The backups agree with the live configuration, i.e. the configuration
currently holds its nominal values.  This holds at the start of every ply. -/
def SchedulerState.nominal (s : SchedulerState) : Prop :=
  s.searchLimits.nodes = s.backupNodes ∧
  s.qValueWeight = s.backupQValueWeight ∧
  s.dirichletEpsilon = s.backupDirichletEpsilon

instance (s : SchedulerState) : Decidable s.nominal := by
  unfold SchedulerState.nominal
  infer_instance

/-- The per-ply scheduling branch taken during self play: a quick search,
a randomized node budget with the given draw, or neither. -/
inductive PlyBranch where
  | quickSearch
  | randomizedBudget (randInt : Int)
  | plain
  deriving DecidableEq, Repr

/-- Modelled from the spec: the scheduler's per-ply overrides (the bodies
of `is_quick_search` and the quick-search setup are outside the
snapshot).  A quick search replaces the node budget by the reduced
quick-search budget and overrides the exploration parameters; a
randomized budget applies `adjust_node_count`; otherwise the
configuration is untouched.  Returns the perturbed state together with
the `isQuickSearch` flag later passed to `reset_search_params`. -/
def apply_scheduler (rl : RLSettings) (s : SchedulerState) (b : PlyBranch) :
    SchedulerState × Bool :=
  match b with
  | .quickSearch =>
      ({ s with searchLimits := { s.searchLimits with nodes := rl.quickSearchNodes },
                qValueWeight := rl.quickSearchQValueWeight,
                dirichletEpsilon := rl.quickDirichletEpsilon }, true)
  | .randomizedBudget randInt =>
      ({ s with searchLimits := adjust_node_count rl s.searchLimits randInt }, false)
  | .plain => (s, false)

/-- Modelled from the spec: the body of `reset_search_params` (declared at
src/engine/src/rl/selfplay.h:120) is outside the snapshot.  Per its doc
comment it resets all search parameters to their initial values: the node
budget is restored from `backupNodes`, and after a quick search the
exploration parameters are restored from their backups as well. -/
def reset_search_params (s : SchedulerState) (isQuickSearch : Bool) :
    SchedulerState :=
  { s with
    searchLimits := { s.searchLimits with nodes := s.backupNodes },
    qValueWeight := if isQuickSearch then s.backupQValueWeight else s.qValueWeight,
    dirichletEpsilon :=
      if isQuickSearch then s.backupDirichletEpsilon else s.dirichletEpsilon }

/-- One scheduled ply: apply the branch's override, search (opaque), then
unconditionally run the restoration — also when the move ends the game
(`gameEnding` is deliberately not consulted). -/
def ply_step (rl : RLSettings) (s : SchedulerState) (b : PlyBranch)
    (gameEnding : Bool) : SchedulerState :=
  let su := apply_scheduler rl s b
  let _ := gameEnding
  reset_search_params su.1 su.2

/-- Tournament result of an arena match (`tournamentresult.h` is outside
the snapshot): win/draw/loss counts from the contender's perspective.
Per the doc comment of `go_arena` (src/engine/src/rl/selfplay.h:146-147),
wins give 1.0 points, 0.5 for draw, 0.0 for loss. -/
structure TournamentResult where
  numberWins : Nat
  numberDraws : Nat
  numberLosses : Nat
  deriving DecidableEq, Repr

/-- The derived score of a tournament result, from the contender's
perspective: wins·1 + draws·0.5 (losses contribute 0). -/
def TournamentResult.score (t : TournamentResult) : Rat :=
  (t.numberWins : Rat) * 1 + (t.numberDraws : Rat) * (1 / 2)

/-- Whether a game result is a win for the contender, given which color
the contender played in that game. -/
def contender_win (r : Result) (contenderIsWhite : Bool) : Bool :=
  match r, contenderIsWhite with
  | .whiteWin, true => true
  | .blackWin, false => true
  | _, _ => false

/-- Record one finished arena game into the running tally, from the
contender's perspective. -/
def TournamentResult.add_result (t : TournamentResult) (r : Result)
    (contenderIsWhite : Bool) : TournamentResult :=
  match r with
  | .draw => { t with numberDraws := t.numberDraws + 1 }
  | _ =>
    if contender_win r contenderIsWhite then
      { t with numberWins := t.numberWins + 1 }
    else
      { t with numberLosses := t.numberLosses + 1 }

/-- Modelled from the spec: the deterministic color alternation of
`go_arena` (body outside the snapshot) — the side playing white swaps
every game, the contender taking white on even game indices. -/
def contender_plays_white (gameIdx : Nat) : Bool :=
  gameIdx % 2 == 0

/-- The number of games of an `numberOfGames`-game arena match in which
the alternation hands the white pieces to the contender. -/
def contender_white_count (numberOfGames : Nat) : Nat :=
  ((List.range numberOfGames).filter contender_plays_white).length

/-- Modelled from the spec: the match loop of `go_arena` (declared at
src/engine/src/rl/selfplay.h:149; body outside the snapshot).  Game
outcomes are supplied by `play`, mapping a game index and the contender's
color to the game's `Result`, or `none` when the game fails (oracle
unable to produce a legal move).  Colors alternate deterministically;
each finished game is tallied from the contender's perspective; a failed
game is dropped and leaves the accumulated tally unchanged.
`go_arena play n` is the tournament result after the first `n` games. -/
def go_arena (play : Nat → Bool → Option Result) : Nat → TournamentResult
  | 0 => ⟨0, 0, 0⟩
  | n + 1 =>
      match play n (contender_plays_white n) with
      | none => go_arena play n
      | some r => (go_arena play n).add_result r (contender_plays_white n)

/-- A concrete 10-game arena schedule: the contender wins games 0-5
(with either color), loses games 6-7, and draws games 8-9. -/
def example_arena_play (gameIdx : Nat) (contenderIsWhite : Bool) :
    Option Result :=
  if gameIdx < 6 then
    some (if contenderIsWhite then .whiteWin else .blackWin)
  else if gameIdx < 8 then
    some (if contenderIsWhite then .blackWin else .whiteWin)
  else
    some .draw

/-- Modelled from the spec: the sample flow of the self-play loop `go`
(declared at src/engine/src/rl/selfplay.h:139; body outside the
snapshot).  `play` maps a game index to the batch of training samples
that game submits (abstracted as numbers), or `none` when the oracle
fails to produce a legal move, in which case the game's unflushed samples
are discarded and the run proceeds to the next game.  Returns the
exported samples and the number of successfully completed games. -/
def go (play : Nat → Option (List Nat)) : Nat → List Nat × Nat
  | 0 => ([], 0)
  | n + 1 =>
      match play n with
      | none => go play n
      | some samples => ((go play n).1 ++ samples, (go play n).2 + 1)

/-- An abstract environment for raw-policy opening generation over an
opaque state type `S`: a terminality test and the effect of applying the
move sampled (temperature 1, proportional) from the raw policy at a
state.  The random draws of the sampling are folded into the
environment, so one environment describes one resolved run. -/
structure RawPolicyEnv (S : Type) where
  isTerminal : S → Bool
  sampleMove : S → S

/-- Modelled from the spec: the body of `init_starting_pos_from_raw_policy`
(declared at src/engine/src/rl/selfplay.h:179) is outside the snapshot.
Per its doc comment, moves are sampled from the raw policy with
temperature 1 and the iteration stops either when the number of plys is
reached or when the next move would lead to a terminal state.  Returns
the resulting starting position together with the number of plies
actually applied. -/
def init_starting_pos_from_raw_policy {S : Type} (env : RawPolicyEnv S) :
    Nat → S → S × Nat
  | 0, s => (s, 0)
  | n + 1, s =>
      let s2 := env.sampleMove s
      if env.isTerminal s2 then (s, 0)
      else
        let r := init_starting_pos_from_raw_policy env n s2
        (r.1, r.2 + 1)

/-- One game's PGN record (`gamepgn.h` is outside the snapshot): the
ply-by-ply moves (abstract encodings) and the result tag, `none` while
the game is unterminated. -/
structure GamePGN where
  gameMoves : List Nat
  result : Option Result
  deriving DecidableEq, Repr

/-- Modelled from the spec: `GamePGN::new_game` resets the record to
empty for the next game. -/
def GamePGN.new_game (pgn : GamePGN) : GamePGN :=
  let _ := pgn
  ⟨[], none⟩

/-- The observable per-game world around one generated game: the PGN
record, the MCTS agent's per-game history/search tree (abstract), the
states manager's active states (the repetition-detection contents), and
the live board position — `none` once the board is retired. -/
structure GameWorld where
  gamePGN : GamePGN
  agentGameHistory : List Nat
  activeStates : List Nat
  position : Option Nat
  deriving DecidableEq, Repr

/-- Modelled from the spec: the body of `clean_up` (declared at
src/engine/src/rl/selfplay.h:162) is outside the snapshot.  Per its doc
comment it deletes the position, clears the current active states of the
StatesManager, clears the game history of the MCTSAgent, and calls
`new_game()` on the gamePGN struct. -/
def clean_up (w : GameWorld) : GameWorld :=
  { gamePGN := w.gamePGN.new_game
    agentGameHistory := []
    activeStates := []
    position := none }

/-- Modelled from the spec: the exit skeleton of one generated game
(self-play or arena; the bodies of `generate_game` and
`generate_arena_game` are outside the snapshot).  Starting from the
previous world, the game appends its moves to the PGN record, the
agent's history and the repetition states while a board is live, and
either terminates normally with a result or aborts (`outcome = none`);
`clean_up` runs on both exit paths.  Returns the post-game world and
the transcript written (empty for an aborted game). -/
def run_game_lifecycle (w : GameWorld) (moves : List Nat)
    (outcome : Option Result) : GameWorld × List Nat :=
  let played : GameWorld :=
    { gamePGN := ⟨w.gamePGN.gameMoves ++ moves, outcome⟩
      agentGameHistory := w.agentGameHistory ++ moves
      activeStates := w.activeStates ++ moves
      position := some moves.length }
  let transcript :=
    match outcome with
    | none => []
    | some _ => played.gamePGN.gameMoves
  (clean_up played, transcript)

/-- The orchestrator state of `SelfPlay`
(src/engine/src/rl/selfplay.h:42-57), with the agent and configuration
pointers abstracted to identifiers. -/
structure SelfPlayState where
  rawAgentId : Nat
  mctsAgentId : Nat
  searchLimitsId : Nat
  playSettingsId : Nat
  rlSettingsId : Nat
  gamePGN : GamePGN
  exporterId : Nat
  filenamePGNSelfplay : String
  filenamePGNArena : String
  fileNameGameIdx : String
  gameIdx : Nat
  gamesPerMin : Rat
  samplesPerMin : Rat
  backupNodes : Nat
  backupDirichletEpsilon : Rat
  backupQValueWeight : Rat
  deriving DecidableEq, Repr

/-- Modelled from the spec: the body of `export_number_generated_games`
(declared `const` at src/engine/src/rl/selfplay.h:101) is outside the
snapshot.  It writes the companion metadata file (named by
`fileNameGameIdx`) recording how many games the newly finalized shard
contains; being a `const` member function it returns the orchestrator
state unchanged next to the written output. -/
def export_number_generated_games (s : SelfPlayState) :
    SelfPlayState × (String × Nat) :=
  (s, (s.fileNameGameIdx, s.gameIdx))

end CrazyAra

/-- (C2) `clip_ply` returns `ply` unchanged whenever `ply ≤ maxPly`, and
otherwise returns a value in [0, maxPly]; in particular
`clip_ply 10 30 = 10` and `clip_ply 50 30 ∈ [0, 30]` for every draw. -/
theorem clip_ply_spec (ply maxPly draw : Nat) :
    (ply ≤ maxPly → CrazyAra.clip_ply ply maxPly draw = ply) ∧
    (maxPly < ply → CrazyAra.clip_ply ply maxPly draw ≤ maxPly) ∧
    CrazyAra.clip_ply 10 30 draw = 10 ∧
    CrazyAra.clip_ply 50 30 draw ≤ 30 := by
  refine ⟨fun h => ?_, fun h => ?_, ?_, ?_⟩
  · simp [CrazyAra.clip_ply, h]
  · simp only [CrazyAra.clip_ply, if_neg (Nat.not_le.mpr h)]
    exact Nat.lt_succ_iff.mp (Nat.mod_lt _ (Nat.succ_pos _))
  · simp [CrazyAra.clip_ply]
  · simp only [CrazyAra.clip_ply]
    norm_num
    exact Nat.lt_succ_iff.mp (Nat.mod_lt _ (by norm_num))

/-- Witness for C2: the two branches evaluated at concrete inputs. -/
theorem clip_ply_spec_witness :
    CrazyAra.clip_ply 10 30 7 = 10 ∧ CrazyAra.clip_ply 50 30 77 ≤ 30 :=
  ⟨(clip_ply_spec 10 30 7).1 (by decide),
   (clip_ply_spec 50 30 77).2.1 (by decide)⟩

/-- (C9) With a zero ply budget the clip is deterministic: for every ply
and every random draw, `clip_ply ply 0` returns exactly 0. -/
theorem clip_ply_zero_budget (ply draw : Nat) :
    CrazyAra.clip_ply ply 0 draw = 0 := by
  unfold CrazyAra.clip_ply
  rcases Nat.eq_zero_or_pos ply with h | h
  · simp [h]
  · simp [Nat.not_le.mpr h, Nat.mod_one]

/-- (C3) For every random draw, the node budget written by
`adjust_node_count` is never below the configured safety floor
`minimumNodes`: an offending perturbation is clamped, not raised. -/
theorem adjust_node_count_floor (rl : CrazyAra.RLSettings)
    (limits : CrazyAra.SearchLimits) (randInt : Int) :
    rl.minimumNodes ≤ (CrazyAra.adjust_node_count rl limits randInt).nodes := by
  unfold CrazyAra.adjust_node_count
  exact Nat.le_max_left _ _

/-- (C1) On every per-ply scheduling branch (quick search, randomized
budget, neither) and whether or not the move ends the game, a ply that
starts from the nominal configuration ends with `reset_search_params`
having restored exactly that configuration, and the nominal invariant
still holds for the next ply: no override is visible across ply
boundaries. -/
theorem reset_search_params_restores (rl : CrazyAra.RLSettings)
    (s : CrazyAra.SchedulerState) (b : CrazyAra.PlyBranch)
    (gameEnding : Bool) (h : s.nominal) :
    (CrazyAra.ply_step rl s b gameEnding).config = s.config ∧
    (CrazyAra.ply_step rl s b gameEnding).nominal := by
  obtain ⟨⟨n⟩, q, d, bn, bq, bd⟩ := s
  obtain ⟨h1, h2, h3⟩ := h
  simp only [CrazyAra.SchedulerState.nominal] at h1 h2 h3
  subst h1; subst h2; subst h3
  cases b <;>
    simp [CrazyAra.ply_step, CrazyAra.apply_scheduler,
      CrazyAra.reset_search_params, CrazyAra.SchedulerState.config,
      CrazyAra.SchedulerState.nominal]

/-- Witness for C1: a concrete nominal scheduler state put through the
quick-search branch of a game-ending ply comes back unchanged. -/
theorem reset_search_params_restores_witness :
    (CrazyAra.ply_step ⟨25, 100, 1, 0, 100⟩
        ⟨⟨800⟩, 1, 0, 800, 1, 0⟩ .quickSearch true).config =
      CrazyAra.SchedulerState.config ⟨⟨800⟩, 1, 0, 800, 1, 0⟩ ∧
    (CrazyAra.ply_step ⟨25, 100, 1, 0, 100⟩
        ⟨⟨800⟩, 1, 0, 800, 1, 0⟩ .quickSearch true).nominal :=
  reset_search_params_restores ⟨25, 100, 1, 0, 100⟩
    ⟨⟨800⟩, 1, 0, 800, 1, 0⟩ .quickSearch true ⟨rfl, rfl, rfl⟩

/-- (C4) The tournament result returned by `go_arena` is scored from the
contender's perspective as wins·1 + draws·0.5 with losses scoring 0, its
win count being exactly the number of completed games the contender won;
on the concrete 10-game match with 6 contender wins, 2 losses and 2
draws, the score is 7. -/
theorem go_arena_score (play : Nat → Bool → Option CrazyAra.Result) (n : Nat) :
    (CrazyAra.go_arena play n).score =
      ((CrazyAra.go_arena play n).numberWins : Rat) * 1 +
        ((CrazyAra.go_arena play n).numberDraws : Rat) * (1 / 2) ∧
    (CrazyAra.go_arena play n).numberWins =
      ((List.range n).filter (fun i =>
        match play i (CrazyAra.contender_plays_white i) with
        | some r => CrazyAra.contender_win r (CrazyAra.contender_plays_white i)
        | none => false)).length ∧
    CrazyAra.go_arena CrazyAra.example_arena_play 10 = ⟨6, 2, 2⟩ ∧
    (CrazyAra.go_arena CrazyAra.example_arena_play 10).score = 7 := by
  have hex : CrazyAra.go_arena CrazyAra.example_arena_play 10 = ⟨6, 2, 2⟩ := by
    decide
  refine ⟨rfl, ?_, hex, ?_⟩
  · induction n with
    | zero => rfl
    | succ m ih =>
      rw [List.range_succ, List.filter_append, List.length_append]
      show (CrazyAra.go_arena play (m + 1)).numberWins = _
      unfold CrazyAra.go_arena
      rcases hp : play m (CrazyAra.contender_plays_white m) with _ | r
      · simp [hp, ih]
      · rcases r with _ | _ | _ <;>
          simp only [hp, CrazyAra.TournamentResult.add_result,
            CrazyAra.contender_win, List.filter_singleton] <;>
          rcases hw : CrazyAra.contender_plays_white m with _ | _ <;>
          simp [ih, CrazyAra.contender_win]
  · rw [hex]
    show (6 : Rat) * 1 + (2 : Rat) * (1 / 2) = 7
    norm_num

/-- (C5) The side assignment of `go_arena` alternates deterministically,
so over an N-game match the contender takes the white pieces on exactly
⌈N/2⌉ games — in particular on ⌈N/2⌉ or ⌊N/2⌋ of the N games, as
specified. -/
theorem go_arena_alternation (n : Nat) :
    CrazyAra.contender_white_count n = (n + 1) / 2 ∧
    (CrazyAra.contender_white_count n = (n + 1) / 2 ∨
      CrazyAra.contender_white_count n = n / 2) := by
  have key : ∀ m : Nat, CrazyAra.contender_white_count m = (m + 1) / 2 := by
    intro m
    induction m with
    | zero => rfl
    | succ k ih =>
      unfold CrazyAra.contender_white_count at ih ⊢
      rw [List.range_succ, List.filter_append, List.length_append, ih,
        List.filter_singleton]
      rcases Nat.mod_two_eq_zero_or_one k with hk | hk <;>
        simp [CrazyAra.contender_plays_white, hk] <;> omega
  exact ⟨key n, Or.inl (key n)⟩

/-- (C8) A game failure is isolated: the samples `go` exports are exactly
the concatenation of the batches of the successful games (a failed game's
samples are discarded and the run continues), the number of successful
games is the number of non-failing games and never exceeds the requested
`numberOfGames` (a best-effort target), and a failing arena game leaves
the tournament result accumulated from the already-completed games of
the match unchanged. -/
theorem oracle_failure_isolated (play : Nat → Option (List Nat))
    (aplay : Nat → Bool → Option CrazyAra.Result) (n k : Nat)
    (h : aplay k (CrazyAra.contender_plays_white k) = none) :
    (CrazyAra.go play n).1 = ((List.range n).filterMap play).flatten ∧
    (CrazyAra.go play n).2 =
      ((List.range n).filter (fun i => (play i).isSome)).length ∧
    (CrazyAra.go play n).2 ≤ n ∧
    CrazyAra.go_arena aplay (k + 1) = CrazyAra.go_arena aplay k := by
  have h1 : ∀ m : Nat,
      (CrazyAra.go play m).1 = ((List.range m).filterMap play).flatten := by
    intro m
    induction m with
    | zero => rfl
    | succ j ih =>
      rw [List.range_succ, List.filterMap_append, List.flatten_append]
      show (CrazyAra.go play (j + 1)).1 = _
      unfold CrazyAra.go
      rcases hp : play j with _ | samples <;> simp [hp, ih]
  have h2 : ∀ m : Nat,
      (CrazyAra.go play m).2 =
        ((List.range m).filter (fun i => (play i).isSome)).length := by
    intro m
    induction m with
    | zero => rfl
    | succ j ih =>
      rw [List.range_succ, List.filter_append, List.length_append,
        List.filter_singleton]
      show (CrazyAra.go play (j + 1)).2 = _
      unfold CrazyAra.go
      rcases hp : play j with _ | samples <;> simp [hp, ih]
  refine ⟨h1 n, h2 n, ?_, ?_⟩
  · calc (CrazyAra.go play n).2
        = ((List.range n).filter (fun i => (play i).isSome)).length := h2 n
      _ ≤ (List.range n).length := List.length_filter_le _ _
      _ = n := List.length_range n
  · rw [CrazyAra.go_arena, h]

/-- Witness for C8: a run where every game fails exports nothing,
completes zero of one requested games, and an arena whose first game
fails keeps the empty initial tally. -/
theorem oracle_failure_isolated_witness :
    (CrazyAra.go (fun _ => none) 1).1 =
      ((List.range 1).filterMap (fun _ => none)).flatten ∧
    (CrazyAra.go (fun _ => none) 1).2 =
      ((List.range 1).filter
        (fun i => (((fun _ => none) : Nat → Option (List Nat)) i).isSome)).length ∧
    (CrazyAra.go (fun _ => none) 1).2 ≤ 1 ∧
    CrazyAra.go_arena (fun _ _ => none) (0 + 1) =
      CrazyAra.go_arena (fun _ _ => none) 0 :=
  oracle_failure_isolated (fun _ => none) (fun _ _ => none) 1 0 rfl

/-- (C6) For every raw-policy environment, target ply count and
non-terminal start state, `init_starting_pos_from_raw_policy` returns a
non-terminal position, applies between 0 and the target number of
sampled plies, and the returned position is exactly the start state with
that many sampled moves applied (hence legal and reachable); iteration
stops early when the next move would lead to a terminal state. -/
theorem init_starting_pos_nonterminal {S : Type}
    (env : CrazyAra.RawPolicyEnv S) (plys : Nat) (s : S)
    (h : env.isTerminal s = false) :
    env.isTerminal (CrazyAra.init_starting_pos_from_raw_policy env plys s).1
        = false ∧
    (CrazyAra.init_starting_pos_from_raw_policy env plys s).2 ≤ plys ∧
    (CrazyAra.init_starting_pos_from_raw_policy env plys s).1 =
      env.sampleMove^[(CrazyAra.init_starting_pos_from_raw_policy env plys s).2]
        s := by
  induction plys generalizing s with
  | zero => exact ⟨h, Nat.le_refl 0, rfl⟩
  | succ n ih =>
    unfold CrazyAra.init_starting_pos_from_raw_policy
    cases ht : env.isTerminal (env.sampleMove s) with
    | true =>
      simp only [ht, if_true]
      exact ⟨h, Nat.zero_le _, rfl⟩
    | false =>
      simp only [ht, Bool.false_eq_true, if_false]
      obtain ⟨h1, h2, h3⟩ := ih (env.sampleMove s) ht
      exact ⟨h1, Nat.succ_le_succ h2,
        by rw [h3, Function.iterate_succ_apply]⟩

/-- Witness for C6: counting up from 0 with terminality at 5, a 3-ply
opening from 0 stays non-terminal, applies at most 3 plies, and lands on
the iterate of the sampler. -/
theorem init_starting_pos_nonterminal_witness :
    (CrazyAra.RawPolicyEnv.isTerminal ⟨fun n => decide (5 ≤ n), Nat.succ⟩
      (CrazyAra.init_starting_pos_from_raw_policy
        ⟨fun n => decide (5 ≤ n), Nat.succ⟩ 3 0).1) = false ∧
    (CrazyAra.init_starting_pos_from_raw_policy
      ⟨fun n => decide (5 ≤ n), Nat.succ⟩ 3 0).2 ≤ 3 ∧
    (CrazyAra.init_starting_pos_from_raw_policy
      ⟨fun n => decide (5 ≤ n), Nat.succ⟩ 3 0).1 =
      Nat.succ^[(CrazyAra.init_starting_pos_from_raw_policy
        ⟨fun n => decide (5 ≤ n), Nat.succ⟩ 3 0).2] 0 :=
  init_starting_pos_nonterminal ⟨fun n => decide (5 ≤ n), Nat.succ⟩ 3 0 rfl

/-- (C7) On every exit path of a game — terminated with any result or
aborted — the cleanup leaves no observable per-game state: the PGN
record is reset to empty, the agent's per-game history and the
repetition-detection states are cleared, and the board position is
retired, so nothing carries into the next game. -/
theorem clean_up_clears_all (w : CrazyAra.GameWorld) (moves : List Nat)
    (outcome : Option CrazyAra.Result) :
    (CrazyAra.run_game_lifecycle w moves outcome).1.gamePGN =
        ⟨[], none⟩ ∧
    (CrazyAra.run_game_lifecycle w moves outcome).1.agentGameHistory = [] ∧
    (CrazyAra.run_game_lifecycle w moves outcome).1.activeStates = [] ∧
    (CrazyAra.run_game_lifecycle w moves outcome).1.position = none :=
  ⟨rfl, rfl, rfl, rfl⟩

/-- (C10) `export_number_generated_games` is const: it leaves every
field of the orchestrator unchanged — the whole state, and in particular
the game index, the speed statistics, the exporter and the filename and
configuration fields — while producing the companion games-count
metadata for the finalized shard. -/
theorem export_number_generated_games_const (s : CrazyAra.SelfPlayState) :
    (CrazyAra.export_number_generated_games s).1 = s ∧
    (CrazyAra.export_number_generated_games s).1.gameIdx = s.gameIdx ∧
    (CrazyAra.export_number_generated_games s).1.gamesPerMin = s.gamesPerMin ∧
    (CrazyAra.export_number_generated_games s).1.samplesPerMin
        = s.samplesPerMin ∧
    (CrazyAra.export_number_generated_games s).1.exporterId = s.exporterId ∧
    (CrazyAra.export_number_generated_games s).1.fileNameGameIdx
        = s.fileNameGameIdx ∧
    (CrazyAra.export_number_generated_games s).2 =
      (s.fileNameGameIdx, s.gameIdx) :=
  ⟨rfl, rfl, rfl, rfl, rfl, rfl, rfl⟩
